import Mathlib

/-!
Shallow embedding of `dbus_aurora_pvinverter.py`: a service that polls an
Aurora PV inverter over a serial client, derives per-phase metrics from the
aggregate readings, and publishes them to a path registry.

Numeric values are modelled as exact rationals; Python float `round(x, n)`
is modelled as round-half-to-even on the scaled rational.  The path registry
(`VeDbusService` from velib_python, not part of the source tree) is modelled
from the spec (section 4.1).
-/

set_option maxRecDepth 10000

attribute [local semireducible] Rat.mul Rat.inv Rat.add Rat.sub Rat.ofScientific

deriving instance DecidableEq for Except

namespace AuroraPV

/-- A value stored at a registry path: the no-value sentinel (Python None),
a number (int/float collapsed to an exact rational), or a string. -/
inductive Value where
  | none : Value
  | num : ℚ → Value
  | str : String → Value
deriving DecidableEq

/-- The four mutable attributes of `DbusDummyService` that carry the last
obtained measurements (class attributes `grid_voltage`, `grid_current`,
`grid_power`, `cum_energy_total`, all initially 0). -/
structure Attrs where
  grid_voltage : ℚ
  grid_current : ℚ
  grid_power : ℚ
  cum_energy_total : ℚ
deriving DecidableEq

/-- Initial attribute values (class-level initializers, all 0). -/
def initialAttrs : Attrs := ⟨0, 0, 0, 0⟩

/-- Round a rational to the nearest integer, ties to even: the rounding mode
of Python 3 `round`. -/
def roundHalfEven (q : ℚ) : ℤ :=
  let f := ⌊q⌋
  let r := q - (f : ℚ)
  if r < 1/2 then f
  else if 1/2 < r then f + 1
  else if f % 2 = 0 then f else f + 1

/-- Python `round(x, n)` on exact rationals: round-half-to-even applied to
`x * 10^n`, scaled back. -/
def pyRound (x : ℚ) (n : ℕ) : ℚ := ((roundHalfEven (x * (10 : ℚ) ^ n) : ℤ) : ℚ) / (10 : ℚ) ^ n

/-- Behaviour of the `AuroraSerialClient` for one acquisition cycle: the
outcome of each request the cycle may issue.  `Except.error ()` stands for a
raised `AuroraError`; `time_date` returning `-1` is the explicit offline
marker checked by the source. -/
structure ClientBehavior where
  connectOk : Bool
  time_date : Except Unit ℤ
  measure : ℕ → Except Unit ℚ
  cumulated_energy : ℕ → Except Unit ℚ

/-- A transport-level event observable at the serial-client boundary. -/
inductive TEvent where
  | connect : TEvent
  | close : TEvent
deriving DecidableEq

/-- Embedding of `DbusDummyService._getInverterData`: one
connect→query→close cycle.  Returns the updated attributes together with the
trace of transport events.  The `try`/`except AuroraError`/`finally` shape of
the source is made explicit: an error outcome aborts the remaining requests
(the caught exception), the offline branch issues an extra `close`, and the
`finally` clause appends a `close` on every path, including the one where
`connect` itself failed. -/
def _getInverterData (a : Attrs) (c : ClientBehavior) : Attrs × List TEvent :=
  let body : Attrs × List TEvent :=
    if c.connectOk then
      match c.time_date with
      | Except.error _ => (a, [TEvent.connect])
      | Except.ok client_time =>
        if client_time ≠ -1 then
          match c.measure 1 with
          | Except.error _ => (a, [TEvent.connect])
          | Except.ok v =>
            let a1 := { a with grid_voltage := v }
            match c.measure 2 with
            | Except.error _ => (a1, [TEvent.connect])
            | Except.ok i =>
              let a2 := { a1 with grid_current := i }
              match c.measure 3 with
              | Except.error _ => (a2, [TEvent.connect])
              | Except.ok p =>
                let a3 := { a2 with grid_power := p }
                match c.cumulated_energy 5 with
                | Except.error _ => (a3, [TEvent.connect])
                | Except.ok e => ({ a3 with cum_energy_total := e }, [TEvent.connect])
        else
          (a, [TEvent.connect, TEvent.close])
    else
      (a, [TEvent.connect])
  (body.1, body.2 ++ [TEvent.close])

/-- Number of `close` calls in a transport trace. -/
def closeCount (evs : List TEvent) : ℕ := evs.count TEvent.close

/-- The ordered batch of path assignments performed inside the
`with self._dbusservice as s:` block of `DbusDummyService._update`
(source lines 68-84), computed from the current attributes. -/
def updateBatch (a : Attrs) : List (String × Value) :=
  [("/Ac/Power", Value.num (pyRound a.grid_power 2)),
   ("/Ac/Current", Value.num (pyRound a.grid_current 2)),
   ("/Ac/L1/Voltage", Value.num (pyRound a.grid_voltage 2)),
   ("/Ac/L1/Current", Value.num (pyRound (a.grid_current / 3) 2)),
   ("/Ac/L1/Power", Value.num (pyRound (a.grid_power / 3) 2)),
   ("/Ac/L2/Voltage", Value.num (pyRound a.grid_voltage 2)),
   ("/Ac/L2/Current", Value.num (pyRound (a.grid_current / 3) 2)),
   ("/Ac/L2/Power", Value.num (pyRound (a.grid_power / 3) 2)),
   ("/Ac/L3/Voltage", Value.num (pyRound a.grid_voltage 2)),
   ("/Ac/L3/Current", Value.num (pyRound (a.grid_current / 3) 2)),
   ("/Ac/L3/Power", Value.num (pyRound (a.grid_power / 3) 2)),
   ("/Ac/Energy/Forward", Value.num (pyRound (a.cum_energy_total / 1000) 2)),
   ("/Ac/L1/Energy/Forward", Value.num (pyRound (a.cum_energy_total / 3000) 2)),
   ("/Ac/L2/Energy/Forward", Value.num (pyRound (a.cum_energy_total / 3000) 2)),
   ("/Ac/L3/Energy/Forward", Value.num (pyRound (a.cum_energy_total / 3000) 2)),
   ("/Ac/MaxPower", Value.num 10000),
   ("/StatusCode", Value.num 7)]

/-- The path names written by the update batch, in write order. -/
def derivedPaths : List String :=
  ["/Ac/Power", "/Ac/Current",
   "/Ac/L1/Voltage", "/Ac/L1/Current", "/Ac/L1/Power",
   "/Ac/L2/Voltage", "/Ac/L2/Current", "/Ac/L2/Power",
   "/Ac/L3/Voltage", "/Ac/L3/Current", "/Ac/L3/Power",
   "/Ac/Energy/Forward", "/Ac/L1/Energy/Forward",
   "/Ac/L2/Energy/Forward", "/Ac/L3/Energy/Forward",
   "/Ac/MaxPower", "/StatusCode"]

/-- Modelled from the spec: the State Path Registry (section 4.1) of
`VeDbusService` (velib_python, not in the source tree), as a total map from
path names to stored values.  Claims only concern registered paths. -/
abbrev Registry := String → Value

/-- Modelled from the spec: `publish` on a single path sets the stored value
unconditionally and does not invoke the change hook. -/
def setPath (r : Registry) (name : String) (v : Value) : Registry :=
  fun k => if k = name then v else r k

/-- Modelled from the spec: committing a change-batch writes every buffered
assignment, in order, as one atomic registry transition (the scoped
transaction of the `with` block: commit on normal exit). -/
def commitBatch (r : Registry) (b : List (String × Value)) : Registry :=
  b.foldl (fun acc pv => setPath acc pv.1 pv.2) r

/-- The last value assigned to key `k` by a batch, if any. -/
def lastAssign : List (String × Value) → String → Option Value
  | [], _ => Option.none
  | pv :: rest, k =>
    match lastAssign rest k with
    | Option.some v => Option.some v
    | Option.none => if k = pv.1 then Option.some pv.2 else Option.none

/-- The full state of the service: measurement attributes plus registry. -/
structure ServiceState where
  attrs : Attrs
  registry : Registry

/-- Embedding of `DbusDummyService._update`: run the acquisition cycle, then
commit the whole derived-value batch in one scoped transaction, and return
`true` (the GLib continuation flag re-arming the timer). -/
def _update (st : ServiceState) (c : ClientBehavior) : ServiceState × Bool :=
  let a := (_getInverterData st.attrs c).1
  ({ attrs := a, registry := commitBatch st.registry (updateBatch a) }, true)

/-- Publishing one snapshot of attribute values into the registry: the
registry part of `_update` in isolation. -/
def publishReading (r : Registry) (a : Attrs) : Registry := commitBatch r (updateBatch a)

/-- The registry contents an external observer can see around one scheduler
tick: the pre-state and the committed post-state.  Modelled from the spec:
the scoped change-batch commits once on normal exit, so no intermediate
registry is observable. -/
def tickObservableRegistries (st : ServiceState) (c : ClientBehavior) : List Registry :=
  [st.registry, (_update st c).1.registry]

/-- Formatter `_kwh` from `main`: `str(round(v, 2)) + "kWh"`. -/
def _kwh (v : ℚ) : String := toString (pyRound v 2) ++ "kWh"

/-- Formatter `_a` from `main`: `str(round(v, 1)) + "A"`. -/
def _a (v : ℚ) : String := toString (pyRound v 1) ++ "A"

/-- Formatter `_w` from `main`: `str(round(v, 1)) + "W"`. -/
def _w (v : ℚ) : String := toString (pyRound v 1) ++ "W"

/-- Formatter `_v` from `main`: `str(round(v, 1)) + "V"`. -/
def _v (v : ℚ) : String := toString (pyRound v 1) ++ "V"

/-- The telemetry `paths` dictionary passed to `DbusDummyService` in `main`:
path name, initial value, display formatter, in declaration order. -/
def pathsConfig : List (String × Value × (ℚ → String)) :=
  [("/Ac/Power", Value.num 0, _w),
   ("/Ac/Current", Value.num 0, _a),
   ("/Ac/L1/Voltage", Value.num 0, _v),
   ("/Ac/L1/Current", Value.num 0, _a),
   ("/Ac/L1/Power", Value.num 0, _w),
   ("/Ac/L2/Voltage", Value.num 0, _v),
   ("/Ac/L2/Current", Value.num 0, _a),
   ("/Ac/L2/Power", Value.num 0, _w),
   ("/Ac/L3/Voltage", Value.num 0, _v),
   ("/Ac/L3/Current", Value.num 0, _a),
   ("/Ac/L3/Power", Value.num 0, _w),
   ("/Ac/Energy/Forward", Value.none, _kwh),
   ("/Ac/L1/Energy/Forward", Value.none, _kwh),
   ("/Ac/L2/Energy/Forward", Value.none, _kwh),
   ("/Ac/L3/Energy/Forward", Value.none, _kwh),
   ("/Ac/MaxPower", Value.num 0, _w)]

/-- The telemetry path names: exactly the keys of the `paths` dictionary,
each registered with `writeable=True` and `onchangecallback=_handlechangedvalue`. -/
def telemetryPaths : List String := pathsConfig.map (fun pc => pc.1)

/-- Apply a numeric display formatter to a stored value.  The no-value
sentinel renders as a dash placeholder and a string renders as itself. -/
def formatValue (f : ℚ → String) : Value → String
  | Value.none => "---"
  | Value.num q => f q
  | Value.str s => s

/-- The formatted display strings of every telemetry path in a registry. -/
def formattedStrings (r : Registry) : List (String × String) :=
  pathsConfig.map (fun pc => (pc.1, formatValue pc.2.2 (r pc.1)))

/-- The full set of paths registered in `DbusDummyService.__init__` with
their initial values: the management and mandatory objects (lines 43-57:
the management strings are runtime environment values, irrelevant to every
claim) followed by the telemetry paths with their configured initials. -/
def initialPaths : List (String × Value) :=
  [("/Mgmt/ProcessName", Value.str "dbus_aurora_pvinverter.py"),
   ("/Mgmt/ProcessVersion", Value.str "Unkown version, and running on Python 3"),
   ("/Mgmt/Connection", Value.str "ttyUSB0"),
   ("/DeviceInstance", Value.num 0),
   ("/ProductId", Value.num 45069),
   ("/ProductName", Value.str "Aurora PV-Inverter"),
   ("/FirmwareVersion", Value.num 0),
   ("/HardwareVersion", Value.num 0),
   ("/Connected", Value.num 1),
   ("/Position", Value.num 0),
   ("/StatusCode", Value.num 0),
   ("/Role", Value.str "pvinverter"),
   ("/DbusInvalid", Value.none)] ++
  pathsConfig.map (fun pc => (pc.1, pc.2.1))

/-- The registry as it stands right after startup, before the first tick. -/
def initialRegistry : Registry := fun k =>
  match initialPaths.find? (fun pv => pv.1 == k) with
  | Option.some pv => pv.2
  | Option.none => Value.none

/-- The service state right after startup. -/
def initialState : ServiceState := ⟨initialAttrs, initialRegistry⟩

/-- Embedding of `DbusDummyService._handlechangedvalue`: the change hook
installed on every telemetry path; it returns `True` for every proposal. -/
def _handlechangedvalue (path : String) (value : Value) : Bool := true

/-- Whether a path was registered writable: exactly the telemetry paths are
added with `writeable=True`. -/
def isWritable (p : String) : Bool := telemetryPaths.contains p

/-- Modelled from the spec: `requestWrite` of the State Path Registry
(section 4.1) of `VeDbusService` (not in the source tree).  A write to a
non-writable path fails with `NotWritableError`; otherwise the installed
change hook decides: acceptance commits the proposed value, rejection keeps
the prior value. -/
def requestWrite (r : Registry) (name : String) (proposed : Value) : Except String Registry :=
  if isWritable name then
    if _handlechangedvalue name proposed then Except.ok (setPath r name proposed)
    else Except.ok r
  else Except.error "NotWritableError"

/-- The polling period passed to `GLib.timeout_add` in milliseconds. -/
def schedulerPeriodMs : ℕ := 10000

/-- Modelled from the spec: whether the periodic timer stays armed after a
tick.  The GLib timer fires again iff the callback returned true. -/
inductive TimerStatus where
  | armed : TimerStatus
  | removed : TimerStatus
deriving DecidableEq

/-- Modelled from the spec: the timer re-arms exactly when the tick callback
returns true. -/
def timerAfterTick (cont : Bool) : TimerStatus :=
  if cont then TimerStatus.armed else TimerStatus.removed

/-- One full scheduler tick: run `_update` and translate its continuation
flag into the timer status. -/
def schedulerTick (st : ServiceState) (c : ClientBehavior) : ServiceState × TimerStatus :=
  let r := _update st c
  (r.1, timerAfterTick r.2)

/-- From the words of the spec: each phase voltage equals the aggregate
voltage, rounded to 2 decimals. -/
def specPhaseVoltage (V : ℚ) : ℚ := pyRound V 2

/-- From the words of the spec: each phase current is the aggregate current
divided by 3, rounded to 2 decimals. -/
def specPhaseCurrent (I : ℚ) : ℚ := pyRound (I / 3) 2

/-- From the words of the spec: each phase power is the aggregate power
divided by 3, rounded to 2 decimals. -/
def specPhasePower (P : ℚ) : ℚ := pyRound (P / 3) 2

/-- From the words of the spec: the published total power, rounded to 2
decimals. -/
def specTotalPower (P : ℚ) : ℚ := pyRound P 2

/-- From the words of the spec: the published total current, rounded to 2
decimals. -/
def specTotalCurrent (I : ℚ) : ℚ := pyRound I 2

/-- From the words of the spec: total forward energy is `round(E/1000, 2)`. -/
def specTotalEnergy (E : ℚ) : ℚ := pyRound (E / 1000) 2

/-- From the words of the spec: per-phase forward energy is `round(E/3000, 2)`. -/
def specPhaseEnergy (E : ℚ) : ℚ := pyRound (E / 3000) 2

/-- The example reading used by the spec scenario:
V=230.0, I=15.0, P=3450.0, E=120500.0. -/
def exampleReading : Attrs := ⟨230, 15, 3450, 120500⟩

/-- A client behaviour whose `connect` raises `AuroraError`: the transport
cannot be opened. -/
def clientConnFail : ClientBehavior :=
  ⟨false, Except.error (), fun _ => Except.error (), fun _ => Except.error ()⟩

/-- A client behaviour where `measure(3)` (grid power) raises `AuroraError`
while `connect`, the clock query, `measure(1)`, `measure(2)` and
`cumulated_energy(5)` would all succeed. -/
def clientPowerFail : ClientBehavior where
  connectOk := true
  time_date := Except.ok 1700000000
  measure := fun ch =>
    if ch = 1 then Except.ok 231
    else if ch = 2 then Except.ok 16
    else Except.error ()
  cumulated_energy := fun _ => Except.ok 999999

theorem commitBatch_apply (b : List (String × Value)) (r : Registry) (k : String) :
    commitBatch r b k = (lastAssign b k).getD (r k) := by
  induction b generalizing r with
  | nil => rfl
  | cons pv rest ih =>
    show commitBatch (setPath r pv.1 pv.2) rest k = _
    rw [ih]
    show _ = (match lastAssign rest k with
      | Option.some v => Option.some v
      | Option.none => if k = pv.1 then Option.some pv.2 else Option.none).getD (r k)
    cases h : lastAssign rest k with
    | some v => simp
    | none =>
      show setPath r pv.1 pv.2 k = _
      unfold setPath
      by_cases hk : k = pv.1 <;> simp [hk]

theorem lastAssign_eq_none {b : List (String × Value)} {k : String}
    (h : k ∉ b.map Prod.fst) : lastAssign b k = Option.none := by
  induction b with
  | nil => rfl
  | cons pv rest ih =>
    simp only [List.map_cons, List.mem_cons, not_or] at h
    show (match lastAssign rest k with
      | Option.some v => Option.some v
      | Option.none => if k = pv.1 then Option.some pv.2 else Option.none) = Option.none
    rw [ih h.2]
    simp [h.1]

theorem updateBatch_keys (a : Attrs) : (updateBatch a).map Prod.fst = derivedPaths := rfl

/-- C1: for every Reading, each phase L1, L2, L3 is published with
voltage `round(V, 2)`, current `round(I/3, 2)`, power `round(P/3, 2)`, and
the totals are `/Ac/Power = round(P, 2)` and `/Ac/Current = round(I, 2)`;
at V=230, I=15, P=3450 this yields 3450, 15, 230, 5 and 1150. -/
theorem C1_balanced_phase_split (r : Registry) (a : Attrs) :
    publishReading r a "/Ac/Power" = Value.num (specTotalPower a.grid_power) ∧
    publishReading r a "/Ac/Current" = Value.num (specTotalCurrent a.grid_current) ∧
    publishReading r a "/Ac/L1/Voltage" = Value.num (specPhaseVoltage a.grid_voltage) ∧
    publishReading r a "/Ac/L1/Current" = Value.num (specPhaseCurrent a.grid_current) ∧
    publishReading r a "/Ac/L1/Power" = Value.num (specPhasePower a.grid_power) ∧
    publishReading r a "/Ac/L2/Voltage" = Value.num (specPhaseVoltage a.grid_voltage) ∧
    publishReading r a "/Ac/L2/Current" = Value.num (specPhaseCurrent a.grid_current) ∧
    publishReading r a "/Ac/L2/Power" = Value.num (specPhasePower a.grid_power) ∧
    publishReading r a "/Ac/L3/Voltage" = Value.num (specPhaseVoltage a.grid_voltage) ∧
    publishReading r a "/Ac/L3/Current" = Value.num (specPhaseCurrent a.grid_current) ∧
    publishReading r a "/Ac/L3/Power" = Value.num (specPhasePower a.grid_power) ∧
    publishReading initialRegistry exampleReading "/Ac/Power" = Value.num 3450 ∧
    publishReading initialRegistry exampleReading "/Ac/Current" = Value.num 15 ∧
    publishReading initialRegistry exampleReading "/Ac/L1/Voltage" = Value.num 230 ∧
    publishReading initialRegistry exampleReading "/Ac/L1/Current" = Value.num 5 ∧
    publishReading initialRegistry exampleReading "/Ac/L1/Power" = Value.num 1150 :=
  ⟨rfl, rfl, rfl, rfl, rfl, rfl, rfl, rfl, rfl, rfl, rfl,
   by decide, by decide, by decide, by decide, by decide⟩

/-- C2: for every cumulative energy value E, the published total forward
energy is `round(E/1000, 2)` and each per-phase forward energy is
`round(E/3000, 2)`; at E=120500 this gives 120.5 and 40.17. -/
theorem C2_energy_scaling (r : Registry) (a : Attrs) :
    publishReading r a "/Ac/Energy/Forward" = Value.num (specTotalEnergy a.cum_energy_total) ∧
    publishReading r a "/Ac/L1/Energy/Forward" = Value.num (specPhaseEnergy a.cum_energy_total) ∧
    publishReading r a "/Ac/L2/Energy/Forward" = Value.num (specPhaseEnergy a.cum_energy_total) ∧
    publishReading r a "/Ac/L3/Energy/Forward" = Value.num (specPhaseEnergy a.cum_energy_total) ∧
    publishReading initialRegistry exampleReading "/Ac/Energy/Forward" = Value.num (120.5 : ℚ) ∧
    publishReading initialRegistry exampleReading "/Ac/L1/Energy/Forward" = Value.num (40.17 : ℚ) :=
  ⟨rfl, rfl, rfl, rfl, by decide, by decide⟩

/-- C6: on every cycle, for every client behaviour, the two constants
`/Ac/MaxPower = 10000` and `/StatusCode = 7` are republished, and the values
the batch assigns to those paths are the same for every Reading. -/
theorem C6_constants_always_published (st : ServiceState) (c : ClientBehavior) :
    (_update st c).1.registry "/Ac/MaxPower" = Value.num 10000 ∧
    (_update st c).1.registry "/StatusCode" = Value.num 7 ∧
    (∀ a : Attrs, lastAssign (updateBatch a) "/Ac/MaxPower" = Option.some (Value.num 10000) ∧
      lastAssign (updateBatch a) "/StatusCode" = Option.some (Value.num 7)) :=
  ⟨rfl, rfl, fun _ => ⟨rfl, rfl⟩⟩

/-- C8: the polling timer has a fixed 10000 ms (10 second) period, and for
every state and every client behaviour (reachable, offline, or failing at
any request) the tick callback returns true, so the timer stays armed and
the next tick still occurs. -/
theorem C8_scheduler_always_rearms :
    schedulerPeriodMs = 10000 ∧
    ∀ (st : ServiceState) (c : ClientBehavior),
      (_update st c).2 = true ∧ (schedulerTick st c).2 = TimerStatus.armed :=
  ⟨rfl, fun _ _ => ⟨rfl, rfl⟩⟩

/-- C9: publishing the same Reading twice in succession is idempotent: the
registry after the second publication equals the registry after the first,
and every telemetry path formats to the same display string. -/
theorem C9_publish_idempotent (r : Registry) (a : Attrs) :
    publishReading (publishReading r a) a = publishReading r a ∧
    formattedStrings (publishReading (publishReading r a) a) = formattedStrings (publishReading r a) := by
  have h : publishReading (publishReading r a) a = publishReading r a := by
    funext k
    show commitBatch (commitBatch r (updateBatch a)) (updateBatch a) k
      = commitBatch r (updateBatch a) k
    rw [commitBatch_apply, commitBatch_apply]
    cases lastAssign (updateBatch a) k <;> rfl
  exact ⟨h, by rw [h]⟩

/-- C3 counterexample: the change-batch of a tick writes 17 distinct paths,
not 16 as the claim states (11 voltage/current/power paths, 4 energy paths,
the max-power constant and the status code). -/
theorem C3_batch_has_17_paths_cex :
    ((updateBatch initialAttrs).map Prod.fst).length = 17 ∧
    ((updateBatch initialAttrs).map Prod.fst).Nodup ∧
    ((updateBatch initialAttrs).map Prod.fst).length ≠ 16 := by
  refine ⟨rfl, by decide, by decide⟩

/-- C3 (amended): the bulk update of each scheduler tick writes the complete
set of 17 derived values inside a single scoped change-batch: the batch keys
are exactly the 17 derived paths, an observer can only see the pre-state or
the fully committed post-state, and the post-state carries every one of the
17 values of the tick. -/
theorem C3_atomic_batch (st : ServiceState) (c : ClientBehavior) :
    (updateBatch (_getInverterData st.attrs c).1).map Prod.fst = derivedPaths ∧
    derivedPaths.length = 17 ∧
    tickObservableRegistries st c
      = [st.registry, commitBatch st.registry (updateBatch (_getInverterData st.attrs c).1)] ∧
    derivedPaths.map (commitBatch st.registry (updateBatch (_getInverterData st.attrs c).1))
      = (updateBatch (_getInverterData st.attrs c).1).map Prod.snd :=
  ⟨rfl, rfl, rfl, rfl⟩

/-- C4 counterexample: with the prior attributes of the spec scenario, when
only `measure(3)` (power) fails while voltage, current and the energy
request would all succeed, the energy request is never issued, so
`/Ac/Energy/Forward` keeps the value derived from the old energy (120.5)
instead of updating to the newly measurable one — refuting the claim that
every measured field other than the failing one is updated. -/
theorem C4_later_fields_stale_cex :
    (clientPowerFail.measure 3 = Except.error () ∧
     clientPowerFail.measure 1 = Except.ok 231 ∧
     clientPowerFail.measure 2 = Except.ok 16 ∧
     clientPowerFail.cumulated_energy 5 = Except.ok 999999) ∧
    (_update ⟨exampleReading, initialRegistry⟩ clientPowerFail).1.registry "/Ac/L1/Voltage"
      = Value.num 231 ∧
    (_update ⟨exampleReading, initialRegistry⟩ clientPowerFail).1.registry "/Ac/Energy/Forward"
      = Value.num (120.5 : ℚ) ∧
    Value.num (120.5 : ℚ) ≠ Value.num (pyRound ((999999 : ℚ) / 1000) 2) :=
  ⟨⟨rfl, rfl, rfl, rfl⟩, by decide, by decide, by decide⟩

/-- C4 (amended): when `measure(3)` (power) fails mid-cycle after voltage and
current succeeded, the fields measured before the failure (voltage, current)
are updated, while the failing field and every field requested after it
(power and cumulative energy) keep their prior attribute values; the
republished paths reflect exactly that, and `/Ac/MaxPower = 10000` and
`/StatusCode = 7` are published regardless. -/
theorem C4_prefix_update (st : ServiceState) (c : ClientBehavior) (t : ℤ) (v i : ℚ)
    (hc : c.connectOk = true) (ht : c.time_date = Except.ok t) (ht1 : t ≠ -1)
    (h1 : c.measure 1 = Except.ok v) (h2 : c.measure 2 = Except.ok i)
    (h3 : c.measure 3 = Except.error ()) :
    (_update st c).1.attrs
      = { grid_voltage := v, grid_current := i, grid_power := st.attrs.grid_power,
          cum_energy_total := st.attrs.cum_energy_total } ∧
    (_update st c).1.registry "/Ac/L1/Voltage" = Value.num (pyRound v 2) ∧
    (_update st c).1.registry "/Ac/L2/Voltage" = Value.num (pyRound v 2) ∧
    (_update st c).1.registry "/Ac/L3/Voltage" = Value.num (pyRound v 2) ∧
    (_update st c).1.registry "/Ac/Current" = Value.num (pyRound i 2) ∧
    (_update st c).1.registry "/Ac/L1/Current" = Value.num (pyRound (i / 3) 2) ∧
    (_update st c).1.registry "/Ac/L2/Current" = Value.num (pyRound (i / 3) 2) ∧
    (_update st c).1.registry "/Ac/L3/Current" = Value.num (pyRound (i / 3) 2) ∧
    (_update st c).1.registry "/Ac/Power" = Value.num (pyRound st.attrs.grid_power 2) ∧
    (_update st c).1.registry "/Ac/L1/Power" = Value.num (pyRound (st.attrs.grid_power / 3) 2) ∧
    (_update st c).1.registry "/Ac/L2/Power" = Value.num (pyRound (st.attrs.grid_power / 3) 2) ∧
    (_update st c).1.registry "/Ac/L3/Power" = Value.num (pyRound (st.attrs.grid_power / 3) 2) ∧
    (_update st c).1.registry "/Ac/Energy/Forward"
      = Value.num (pyRound (st.attrs.cum_energy_total / 1000) 2) ∧
    (_update st c).1.registry "/Ac/L1/Energy/Forward"
      = Value.num (pyRound (st.attrs.cum_energy_total / 3000) 2) ∧
    (_update st c).1.registry "/Ac/L2/Energy/Forward"
      = Value.num (pyRound (st.attrs.cum_energy_total / 3000) 2) ∧
    (_update st c).1.registry "/Ac/L3/Energy/Forward"
      = Value.num (pyRound (st.attrs.cum_energy_total / 3000) 2) ∧
    (_update st c).1.registry "/Ac/MaxPower" = Value.num 10000 ∧
    (_update st c).1.registry "/StatusCode" = Value.num 7 := by
  have ha : (_getInverterData st.attrs c).1
      = { grid_voltage := v, grid_current := i, grid_power := st.attrs.grid_power,
          cum_energy_total := st.attrs.cum_energy_total } := by
    simp [_getInverterData, hc, ht, ht1, h1, h2, h3]
  have hu : (_update st c).1
      = ⟨(_getInverterData st.attrs c).1,
         commitBatch st.registry (updateBatch (_getInverterData st.attrs c).1)⟩ := rfl
  rw [hu, ha]
  exact ⟨rfl, rfl, rfl, rfl, rfl, rfl, rfl, rfl, rfl, rfl, rfl, rfl, rfl, rfl, rfl, rfl,
    rfl, rfl⟩

/-- Witness for the amended C4 at the concrete scenario: prior attributes
V=230, I=15, P=3450, E=120500 and a client where only `measure(3)` fails. -/
theorem C4_prefix_update_witness :
    (clientPowerFail.connectOk = true ∧
     clientPowerFail.time_date = Except.ok 1700000000 ∧
     (1700000000 : ℤ) ≠ -1 ∧
     clientPowerFail.measure 1 = Except.ok 231 ∧
     clientPowerFail.measure 2 = Except.ok 16 ∧
     clientPowerFail.measure 3 = Except.error ()) ∧
    ((_update ⟨exampleReading, initialRegistry⟩ clientPowerFail).1.attrs
      = { grid_voltage := 231, grid_current := 16,
          grid_power := exampleReading.grid_power,
          cum_energy_total := exampleReading.cum_energy_total } ∧
     (_update ⟨exampleReading, initialRegistry⟩ clientPowerFail).1.registry "/Ac/L1/Voltage"
       = Value.num (pyRound 231 2) ∧
     (_update ⟨exampleReading, initialRegistry⟩ clientPowerFail).1.registry "/Ac/L2/Voltage"
       = Value.num (pyRound 231 2) ∧
     (_update ⟨exampleReading, initialRegistry⟩ clientPowerFail).1.registry "/Ac/L3/Voltage"
       = Value.num (pyRound 231 2) ∧
     (_update ⟨exampleReading, initialRegistry⟩ clientPowerFail).1.registry "/Ac/Current"
       = Value.num (pyRound 16 2) ∧
     (_update ⟨exampleReading, initialRegistry⟩ clientPowerFail).1.registry "/Ac/L1/Current"
       = Value.num (pyRound ((16 : ℚ) / 3) 2) ∧
     (_update ⟨exampleReading, initialRegistry⟩ clientPowerFail).1.registry "/Ac/L2/Current"
       = Value.num (pyRound ((16 : ℚ) / 3) 2) ∧
     (_update ⟨exampleReading, initialRegistry⟩ clientPowerFail).1.registry "/Ac/L3/Current"
       = Value.num (pyRound ((16 : ℚ) / 3) 2) ∧
     (_update ⟨exampleReading, initialRegistry⟩ clientPowerFail).1.registry "/Ac/Power"
       = Value.num (pyRound exampleReading.grid_power 2) ∧
     (_update ⟨exampleReading, initialRegistry⟩ clientPowerFail).1.registry "/Ac/L1/Power"
       = Value.num (pyRound (exampleReading.grid_power / 3) 2) ∧
     (_update ⟨exampleReading, initialRegistry⟩ clientPowerFail).1.registry "/Ac/L2/Power"
       = Value.num (pyRound (exampleReading.grid_power / 3) 2) ∧
     (_update ⟨exampleReading, initialRegistry⟩ clientPowerFail).1.registry "/Ac/L3/Power"
       = Value.num (pyRound (exampleReading.grid_power / 3) 2) ∧
     (_update ⟨exampleReading, initialRegistry⟩ clientPowerFail).1.registry "/Ac/Energy/Forward"
       = Value.num (pyRound (exampleReading.cum_energy_total / 1000) 2) ∧
     (_update ⟨exampleReading, initialRegistry⟩ clientPowerFail).1.registry "/Ac/L1/Energy/Forward"
       = Value.num (pyRound (exampleReading.cum_energy_total / 3000) 2) ∧
     (_update ⟨exampleReading, initialRegistry⟩ clientPowerFail).1.registry "/Ac/L2/Energy/Forward"
       = Value.num (pyRound (exampleReading.cum_energy_total / 3000) 2) ∧
     (_update ⟨exampleReading, initialRegistry⟩ clientPowerFail).1.registry "/Ac/L3/Energy/Forward"
       = Value.num (pyRound (exampleReading.cum_energy_total / 3000) 2) ∧
     (_update ⟨exampleReading, initialRegistry⟩ clientPowerFail).1.registry "/Ac/MaxPower"
       = Value.num 10000 ∧
     (_update ⟨exampleReading, initialRegistry⟩ clientPowerFail).1.registry "/StatusCode"
       = Value.num 7) :=
  ⟨⟨rfl, rfl, by decide, rfl, rfl, rfl⟩,
   C4_prefix_update ⟨exampleReading, initialRegistry⟩ clientPowerFail 1700000000 231 16
     rfl rfl (by decide) rfl rfl rfl⟩

/-- C5 counterexample: on the very first cycle after startup, with the
transport failing to open, `/Ac/Energy/Forward` — a registered path that is
neither `/Ac/MaxPower` nor `/StatusCode` — changes from the no-value
sentinel to 0, refuting the claim that no such path ever changes. -/
theorem C5_first_cycle_cex :
    clientConnFail.connectOk = false ∧
    initialRegistry "/Ac/Energy/Forward" = Value.none ∧
    (_update initialState clientConnFail).1.registry "/Ac/Energy/Forward" = Value.num 0 ∧
    Value.none ≠ Value.num 0 ∧
    "/Ac/Energy/Forward" ≠ "/Ac/MaxPower" ∧
    "/Ac/Energy/Forward" ≠ "/StatusCode" :=
  ⟨rfl, by decide, by decide, by decide, by decide, by decide⟩

/-- C5 (amended): on every cycle in which the transport cannot be opened,
the stored measurement attributes are unchanged and the tick republishes the
17 derived paths from those stale attributes; every path outside the 17
derived paths keeps its value.  A derived path can still change when its
stored value differs from the recomputed one — as the energy paths do on the
very first cycle, where the no-value sentinel is overwritten with 0. -/
theorem C5_conn_fail_frame (st : ServiceState) (c : ClientBehavior)
    (h : c.connectOk = false) :
    (_update st c).1.attrs = st.attrs ∧
    (_update st c).1.registry = publishReading st.registry st.attrs ∧
    (∀ k : String, k ∉ derivedPaths → (_update st c).1.registry k = st.registry k) := by
  have ha : (_getInverterData st.attrs c).1 = st.attrs := by
    simp [_getInverterData, h]
  refine ⟨ha, ?_, ?_⟩
  · show commitBatch st.registry (updateBatch (_getInverterData st.attrs c).1)
      = publishReading st.registry st.attrs
    rw [ha]
    rfl
  · intro k hk
    show commitBatch st.registry (updateBatch (_getInverterData st.attrs c).1) k
      = st.registry k
    rw [ha, commitBatch_apply,
      lastAssign_eq_none (by rw [updateBatch_keys]; exact hk)]
    rfl

/-- Witness for the amended C5 at the initial state with a client whose
transport cannot be opened. -/
theorem C5_conn_fail_frame_witness :
    clientConnFail.connectOk = false ∧
    ((_update initialState clientConnFail).1.attrs = initialState.attrs ∧
     (_update initialState clientConnFail).1.registry
       = publishReading initialState.registry initialState.attrs ∧
     (∀ k : String, k ∉ derivedPaths →
       (_update initialState clientConnFail).1.registry k = initialState.registry k)) :=
  ⟨rfl, C5_conn_fail_frame initialState clientConnFail rfl⟩

/-- C7 counterexample: on the path where `connect` itself fails, the
`finally` clause still calls `close()` once, refuting the claim that close
is not invoked when open never succeeded. -/
theorem C7_close_on_open_failure_cex :
    clientConnFail.connectOk = false ∧
    closeCount (_getInverterData initialAttrs clientConnFail).2 = 1 ∧
    (1 : ℕ) ≠ 0 :=
  ⟨rfl, by decide, by decide⟩

/-- C7 (amended): `close()` is invoked on every exit path of the acquisition
cycle, including the path where `connect` itself failed (the `finally`
clause always runs); on the offline path it is invoked twice — once in the
offline branch and once more in the `finally` clause — and exactly once on
every other path. -/
theorem C7_close_every_exit_path (a : Attrs) (c : ClientBehavior) :
    closeCount (_getInverterData a c).2
      = (if c.connectOk = true ∧ c.time_date = Except.ok (-1) then 2 else 1) := by
  cases hc : c.connectOk with
  | false => simp [_getInverterData, hc, closeCount]
  | true =>
    cases ht : c.time_date with
    | error e => simp [_getInverterData, hc, ht, closeCount]
    | ok t =>
      by_cases h1 : t = -1
      · subst h1
        simp [_getInverterData, hc, ht, closeCount]
      · cases hm1 : c.measure 1 with
        | error e => simp [_getInverterData, hc, ht, h1, hm1, closeCount]
        | ok v =>
          cases hm2 : c.measure 2 with
          | error e => simp [_getInverterData, hc, ht, h1, hm1, hm2, closeCount]
          | ok i =>
            cases hm3 : c.measure 3 with
            | error e => simp [_getInverterData, hc, ht, h1, hm1, hm2, hm3, closeCount]
            | ok p =>
              cases hm5 : c.cumulated_energy 5 with
              | error e =>
                simp [_getInverterData, hc, ht, h1, hm1, hm2, hm3, hm5, closeCount]
              | ok e =>
                simp [_getInverterData, hc, ht, h1, hm1, hm2, hm3, hm5, closeCount]

/-- C10: the change hook installed on every telemetry path accepts every
(path, value) proposal, so a `requestWrite` on any writable telemetry path
commits the proposed value exactly as given. -/
theorem C10_accept_all_writes :
    (∀ (p : String) (v : Value), _handlechangedvalue p v = true) ∧
    ∀ (r : Registry) (p : String) (v : Value), isWritable p = true →
      requestWrite r p v = Except.ok (setPath r p v) := by
  refine ⟨fun _ _ => rfl, fun r p v h => ?_⟩
  simp [requestWrite, h, _handlechangedvalue]

/-- Witness for C10: writing 42.5 to `/Ac/Power` commits exactly 42.5. -/
theorem C10_accept_all_writes_witness :
    isWritable "/Ac/Power" = true ∧
    requestWrite initialRegistry "/Ac/Power" (Value.num (42.5 : ℚ))
      = Except.ok (setPath initialRegistry "/Ac/Power" (Value.num (42.5 : ℚ))) :=
  ⟨by decide,
   C10_accept_all_writes.2 initialRegistry "/Ac/Power" (Value.num (42.5 : ℚ)) (by decide)⟩

end AuroraPV
